import Mathlib

/-!
Verification of the structured logging facility in `test.py`
(classes JSONFormatter, LoggingSystem, DatabaseLogger, APILogger,
SecurityLogger), shallowly embedded in Lean 4.

Modelling conventions:
* Python log severities are the five-element totally ordered enumeration
  with the CPython numeric codes (DEBUG=10 ... CRITICAL=50).
* Python values that can appear inside `extra_data` are the inductive
  `PyValue`; the constructor `PyValue.obj` stands for an arbitrary object
  that `json.dumps` cannot serialize (its field is the value of `str(x)`).
* `json.dumps` (as called by `JSONFormatter.format`, with no `default`
  argument) is the fallible function `dumps`, returning `Except`: it
  raises exactly on `PyValue.obj`.
* Timestamps are abstracted to an opaque pre-rendered string carried in
  the record (`Record.created`); no claim constrains their contents.
* Python floats are modelled as rationals; `%.3f` formatting is `fmt3`.
-/

/-- The five log severities, with CPython numeric codes. -/
inductive Severity where
  | debug
  | info
  | warning
  | error
  | critical
deriving Repr, DecidableEq

/-- CPython numeric level of a severity (logging.DEBUG = 10, ..., logging.CRITICAL = 50). -/
def Severity.num : Severity → Nat
  | .debug => 10
  | .info => 20
  | .warning => 30
  | .error => 40
  | .critical => 50

/-- `record.levelname` as CPython renders it. -/
def Severity.levelname : Severity → String
  | .debug => "DEBUG"
  | .info => "INFO"
  | .warning => "WARNING"
  | .error => "ERROR"
  | .critical => "CRITICAL"

/-- Python values appearing in log context payloads.  `obj s` is a value that
is not JSON-serializable; `s` is its `str()` rendering. -/
inductive PyValue where
  | none
  | bool (b : Bool)
  | int (n : Int)
  | float (q : ℚ)
  | str (s : String)
  | list (xs : List PyValue)
  | dict (kvs : List (String × PyValue))
  | obj (s : String)

mutual

/-- `json.dumps` as called in `JSONFormatter.format` (no `default=` fallback):
fails with a TypeError exactly when it reaches a non-serializable object. -/
def dumps : PyValue → Except String String
  | .none => .ok "null"
  | .bool true => .ok "true"
  | .bool false => .ok "false"
  | .int n => .ok (toString n)
  | .float q => .ok (toString q)
  | .str s => .ok ("\"" ++ s ++ "\"")
  | .list xs => do
      let rs ← dumpsList xs
      pure ("[" ++ String.intercalate ", " rs ++ "]")
  | .dict kvs => do
      let rs ← dumpsPairs kvs
      pure ("\x7b" ++ String.intercalate ", " rs ++ "\x7d")
  | .obj s => .error ("TypeError: Object " ++ s ++ " is not JSON serializable")

/-- Serialize the elements of a JSON array. -/
def dumpsList : List PyValue → Except String (List String)
  | [] => .ok []
  | x :: xs => do
      let r ← dumps x
      let rs ← dumpsList xs
      pure (r :: rs)

/-- Serialize the key/value pairs of a JSON object. -/
def dumpsPairs : List (String × PyValue) → Except String (List String)
  | [] => .ok []
  | (k, v) :: xs => do
      let r ← dumps v
      let rs ← dumpsPairs xs
      pure (("\"" ++ k ++ "\": " ++ r) :: rs)

end

/-- Zero-pad a natural number below 1000 to three digits. -/
def pad3 (n : Nat) : String :=
  if n < 10 then "00" ++ toString n
  else if n < 100 then "0" ++ toString n
  else toString n

/-- Python `%.3f` formatting of a (rational-modelled) float: round the value
times 1000 to the nearest integer (computed on the numerator/denominator so
the kernel can evaluate it) and print with three fractional digits. -/
def fmt3 (q : ℚ) : String :=
  let n : ℤ := Int.fdiv (2000 * q.num + (q.den : ℤ)) (2 * (q.den : ℤ))
  let sign := if n < 0 then "-" else ""
  sign ++ toString (n.natAbs / 1000) ++ "." ++ pad3 (n.natAbs % 1000)

/-- A CPython `logging.LogRecord`, restricted to the fields this program
reads.  `created` is the pre-rendered timestamp string (abstraction of
`record.created` plus its formatting).  `user_id`, `request_id` and
`extra_data` model the dynamically attached attributes from the `extra`
dictionary: `Option.none` means `hasattr` is false. -/
structure Record where
  created : String
  levelno : Severity
  name : String
  message : String
  module : String
  funcName : String
  lineno : Nat
  exc_text : Option String
  user_id : Option String
  request_id : Option String
  extra_data : Option (List (String × PyValue))

/-- The dictionary built by `JSONFormatter.format` before `json.dumps`:
seven required keys, then `exception` / `user_id` / `request_id` /
`extra_data` exactly when the corresponding record attribute is present. -/
def JSONFormatter.logEntry (r : Record) : List (String × PyValue) :=
  [("timestamp", .str r.created),
   ("level", .str r.levelno.levelname),
   ("logger", .str r.name),
   ("message", .str r.message),
   ("module", .str r.module),
   ("function", .str r.funcName),
   ("line", .int (Int.ofNat r.lineno))]
  ++ (match r.exc_text with
      | some e => [("exception", PyValue.str e)]
      | Option.none => [])
  ++ (match r.user_id with
      | some u => [("user_id", PyValue.str u)]
      | Option.none => [])
  ++ (match r.request_id with
      | some q => [("request_id", PyValue.str q)]
      | Option.none => [])
  ++ (match r.extra_data with
      | some d => [("extra_data", PyValue.dict d)]
      | Option.none => [])

/-- `JSONFormatter.format`: serialize the entry dictionary with `json.dumps`. -/
def JSONFormatter.format (r : Record) : Except String String :=
  dumps (.dict (JSONFormatter.logEntry r))

/-- Sanity: `%.3f` on 0.045 renders `0.045` (the C7 scenario timing). -/
theorem fmt3_scenario : fmt3 (mkRat 45 1000) = "0.045" := by decide

/-- Left-justify a level name to width 8 (`%(levelname)-8s`). -/
def padLevel (s : String) : String :=
  s ++ String.mk (List.replicate (8 - s.length) ' ')

/-- The console formatter of `_setup_handlers`:
`%(asctime)s | %(levelname)-8s | %(name)s | %(message)s`. -/
def consoleLineFormat (r : Record) : String :=
  r.created ++ " | " ++ padLevel r.levelno.levelname ++ " | " ++ r.name ++ " | " ++ r.message

/-- The file formatter of `_setup_handlers`:
`%(asctime)s | %(levelname)-8s | %(name)s:%(lineno)d | %(message)s`. -/
def fileLineFormat (r : Record) : String :=
  r.created ++ " | " ++ padLevel r.levelno.levelname ++ " | " ++ r.name ++ ":"
    ++ toString r.lineno ++ " | " ++ r.message

/-- The four output destinations wired by `_setup_handlers`. -/
inductive Dest where
  | console
  | plainFile
  | jsonFile
  | errorFile
deriving Repr, DecidableEq

/-- Which formatter a handler carries. -/
inductive FmtKind where
  | consoleLine
  | fileLine
  | jsonFmt
deriving Repr, DecidableEq

/-- Render a record with a handler's formatter.  The two line formatters are
total; the JSON formatter can raise (see `dumps`). -/
def renderWith : FmtKind → Record → Except String String
  | .consoleLine, r => .ok (consoleLineFormat r)
  | .fileLine, r => .ok (fileLineFormat r)
  | .jsonFmt, r => JSONFormatter.format r

/-- A logging handler: minimum severity plus destination plus formatter. -/
structure Handler where
  level : Severity
  dest : Dest
  fmt : FmtKind
deriving Repr, DecidableEq

/-- The handler list installed by `LoggingSystem._setup_handlers`, in order:
console at INFO, plain rotating file at DEBUG, JSON rotating file at INFO,
error rotating file at ERROR. -/
def setupHandlers : List Handler :=
  [⟨.info, .console, .consoleLine⟩,
   ⟨.debug, .plainFile, .fileLine⟩,
   ⟨.info, .jsonFile, .jsonFmt⟩,
   ⟨.error, .errorFile, .fileLine⟩]

/-- `maxBytes` and `backupCount` of each rotating destination, from
`_setup_handlers`; the console stream is not rotated. -/
def sinkRotation : Dest → Option (Nat × Nat)
  | .console => Option.none
  | .plainFile => some (10 * 1024 * 1024, 5)
  | .jsonFile => some (10 * 1024 * 1024, 5)
  | .errorFile => some (5 * 1024 * 1024, 3)

/-- The mutable state `LoggingSystem.__init__` configures on the root logger:
its level and its handler list. -/
structure LoggingSystem where
  rootLevel : Severity
  handlers : List Handler

/-- `LoggingSystem.__init__`: set the root level to DEBUG, clear any existing
handlers, and install the four handlers of `_setup_handlers`. -/
def LoggingSystem.init (_prev : LoggingSystem) : LoggingSystem :=
  { rootLevel := .debug, handlers := setupHandlers }

/-- A freshly constructed `LoggingSystem` (state after `__init__`, whatever
the previous root-logger state was). -/
def sysDefault : LoggingSystem :=
  LoggingSystem.init { rootLevel := .warning, handlers := [] }

/-- What one handler does with a record that reached the root logger: write a
formatted line to its destination when the record passes its level filter;
if the formatter raises, `Handler.emit` catches the error via `handleError`
and appends nothing to the destination. -/
def handlerWrite (r : Record) (h : Handler) : Option (Dest × String) :=
  if h.level.num ≤ r.levelno.num then
    match renderWith h.fmt r with
    | .ok line => some (h.dest, line)
    | .error _ => Option.none
  else Option.none

/-- One emission through the root logger: the list of (destination, rendered
line) writes performed for a record.  A record passes the root-logger level
check, then every installed handler processes it independently. -/
def emitWrites (sys : LoggingSystem) (r : Record) : List (Dest × String) :=
  if sys.rootLevel.num ≤ r.levelno.num then
    sys.handlers.filterMap (handlerWrite r)
  else []

/-- Number of lines a single emission appends to one destination. -/
def linesTo (sys : LoggingSystem) (r : Record) (d : Dest) : Nat :=
  (emitWrites sys r).countP (fun w => w.1 == d)

/-- Python string truthiness of an optional string attribute
(`if user_id:` is false for both `None` and `""`). -/
def truthyS : Option String → Bool
  | Option.none => false
  | some s => !(s == "")

/-- Python dict truthiness of an optional dictionary
(`if extra_data:` is false for both `None` and the empty dict). -/
def truthyD : Option (List (String × PyValue)) → Bool
  | Option.none => false
  | some d => !d.isEmpty

/-- Call-site metadata CPython captures into every record. -/
structure CallSite where
  created : String
  module : String
  funcName : String
  lineno : Nat

/-- The optional keyword arguments of `LoggingSystem.log_with_context`. -/
structure Ctx where
  user_id : Option String := Option.none
  request_id : Option String := Option.none
  extra_data : Option (List (String × PyValue)) := Option.none

/-- Python `str.lower()`, character by character (kernel-computable model of
`level.lower()`). -/
def pyLower (s : String) : String := String.mk (s.data.map Char.toLower)

/-- The logging methods reachable from `getattr(logger, level.lower())` in
`log_with_context`, with the severity each logs at.  Besides the five level
names, CPython's `Logger` also exposes the aliases `warn` (deprecated,
removed in Python 3.13), `exception` (logs at ERROR) and `fatal` (alias of
`critical`); any other lowered name has no such attribute and the `getattr`
raises AttributeError. -/
def loggerMethods : List (String × Severity) :=
  [("debug", .debug), ("info", .info), ("warning", .warning), ("warn", .warning),
   ("error", .error), ("exception", .error), ("critical", .critical), ("fatal", .critical)]

/-- Resolve a level name the way `getattr(logger, level.lower())` does. -/
def loggerMethod (level : String) : Option Severity :=
  loggerMethods.lookup (pyLower level)

/-- `LoggingSystem.log_with_context`: build the `extra` dictionary (attaching
`user_id` / `request_id` / `extra_data` only when truthy), then dispatch on
the lowered level name.  An unresolvable name raises AttributeError (modelled
as `Except.error`); otherwise the constructed record is returned. -/
def log_with_context (logger_name level message : String) (c : Ctx)
    (cs : CallSite) : Except String Record :=
  match loggerMethod level with
  | Option.none =>
      .error ("AttributeError: Logger object has no attribute " ++ pyLower level)
  | some sev =>
      .ok { created := cs.created, levelno := sev, name := logger_name,
            message := message, module := cs.module, funcName := cs.funcName,
            lineno := cs.lineno, exc_text := Option.none,
            user_id := if truthyS c.user_id then c.user_id else Option.none,
            request_id := if truthyS c.request_id then c.request_id else Option.none,
            extra_data := if truthyD c.extra_data then c.extra_data else Option.none }

/-- Python float truthiness of an optional float argument
(`if execution_time:` is false for both `None` and `0.0`). -/
def truthyF : Option ℚ → Bool
  | Option.none => false
  | some t => !(decide (t = 0))

/-- An optional string argument placed as a value inside a dictionary:
`None` becomes JSON `null`. -/
def optPy : Option String → PyValue
  | Option.none => PyValue.none
  | some s => PyValue.str s

/-- `DatabaseLogger.log_query`: message is the query truncated to its first
100 characters plus a literal ellipsis, with a timing suffix when
`execution_time` is truthy; `extra_data` always holds the full query and
holds `params` / `execution_time` when those arguments are truthy; emits at
INFO on the logger named `database`. -/
def DatabaseLogger.log_query (cs : CallSite) (query : String)
    (params : Option (List (String × PyValue))) (execution_time : Option ℚ) : Record :=
  let msg := "Executing query: " ++ query.take 100 ++ "..."
  let msg := if truthyF execution_time
    then msg ++ " (took " ++ fmt3 (execution_time.getD 0) ++ "s)" else msg
  let ed := [("query", PyValue.str query)]
  let ed := if truthyD params then ed ++ [("params", PyValue.dict (params.getD []))] else ed
  let ed := if truthyF execution_time
    then ed ++ [("execution_time", PyValue.float (execution_time.getD 0))] else ed
  { created := cs.created, levelno := .info, name := "database", message := msg,
    module := cs.module, funcName := cs.funcName, lineno := cs.lineno,
    exc_text := Option.none, user_id := Option.none, request_id := Option.none,
    extra_data := some ed }

/-- `APILogger.log_request`: INFO on the logger named `api`; the inner
`extra_data` dictionary always carries `method`, `endpoint` and `ip_address`
(the last as `None` when the argument was omitted), while the top-level
`user_id` / `request_id` attributes are attached only when truthy. -/
def APILogger.log_request (cs : CallSite) (method endpoint : String)
    (user_id request_id ip_address : Option String) : Record :=
  { created := cs.created, levelno := .info, name := "api",
    message := method ++ " " ++ endpoint,
    module := cs.module, funcName := cs.funcName, lineno := cs.lineno,
    exc_text := Option.none,
    user_id := if truthyS user_id then user_id else Option.none,
    request_id := if truthyS request_id then request_id else Option.none,
    extra_data := some [("method", PyValue.str method),
                        ("endpoint", PyValue.str endpoint),
                        ("ip_address", optPy ip_address)] }

/-- `APILogger.log_response`: WARNING when `status_code >= 400`, INFO
otherwise; `extra_data` carries the status code and response time. -/
def APILogger.log_response (cs : CallSite) (status_code : Int)
    (response_time : ℚ) (request_id : Option String) : Record :=
  { created := cs.created,
    levelno := if status_code ≥ 400 then .warning else .info,
    name := "api",
    message := "Response: " ++ toString status_code
      ++ " (took " ++ fmt3 response_time ++ "s)",
    module := cs.module, funcName := cs.funcName, lineno := cs.lineno,
    exc_text := Option.none, user_id := Option.none,
    request_id := if truthyS request_id then request_id else Option.none,
    extra_data := some [("status_code", PyValue.int status_code),
                        ("response_time", PyValue.float response_time)] }

/-- `SecurityLogger.log_login_attempt`: INFO on success, WARNING on failure;
the message interpolates the status word, the username and the IP address;
`extra_data` records the attempt with `event_type = login_attempt`. -/
def SecurityLogger.log_login_attempt (cs : CallSite) (username : String)
    (success : Bool) (ip_address : String) (user_agent : Option String) : Record :=
  let status := if success then "successful" else "failed"
  { created := cs.created,
    levelno := if success then .info else .warning,
    name := "security",
    message := "Login attempt " ++ status ++ " for user: " ++ username
      ++ " from " ++ ip_address,
    module := cs.module, funcName := cs.funcName, lineno := cs.lineno,
    exc_text := Option.none, user_id := Option.none, request_id := Option.none,
    extra_data := some [("username", PyValue.str username),
                        ("success", PyValue.bool success),
                        ("ip_address", PyValue.str ip_address),
                        ("user_agent", optPy user_agent),
                        ("event_type", PyValue.str "login_attempt")] }

/-- Modelled from the spec: the size-based rotation of
`logging.handlers.RotatingFileHandler` (standard-library code, not under
`src/`; only its configuration appears in `_setup_handlers`).  A rotating
file is the list of lines in the active file plus the backup generations,
newest first (`backups.head` is `.1`). -/
structure RotFile where
  maxBytes : Nat
  backupCount : Nat
  active : List String
  backups : List (List String)

/-- Bytes a formatted line occupies on disk (its characters plus the
newline terminator; characters are abstracted to one byte each). -/
def lineBytes (s : String) : Nat := s.length + 1

/-- Size in bytes of a file holding the given lines. -/
def fileBytes (ls : List String) : Nat := (ls.map lineBytes).sum

/-- Modelled from the spec: rotation triggers when appending the formatted
line would push the active file past `maxBytes` (4.4: "write succeeds only
if appending the formatted line keeps the file at or under max_bytes"). -/
def RotFile.shouldRollover (f : RotFile) (line : String) : Bool :=
  fileBytes f.active + lineBytes line > f.maxBytes

/-- Modelled from the spec: roll the active file into backup generation 1,
shift the others, drop the oldest generation beyond `backupCount`, and start
a fresh active file. -/
def RotFile.doRollover (f : RotFile) : RotFile :=
  { f with active := [], backups := (f.active :: f.backups).take f.backupCount }

/-- Modelled from the spec: one write to a rotating file — rotate first if
the line would push the file past `maxBytes`, then append the line to the
active file (the triggering line lands in the fresh active file). -/
def RotFile.write (f : RotFile) (line : String) : RotFile :=
  if f.shouldRollover line then
    let g := f.doRollover
    { g with active := [line] }
  else
    { f with active := f.active ++ [line] }

/-- Total number of files a rotating sink currently keeps on disk. -/
def RotFile.fileCount (f : RotFile) : Nat := 1 + f.backups.length

/-! ## Helper lemmas about emission -/

theorem handlerWrite_dest {r : Record} {h : Handler} {w : Dest × String}
    (hw : handlerWrite r h = some w) : w.1 = h.dest := by
  unfold handlerWrite at hw
  split at hw
  · split at hw
    · cases hw; rfl
    · cases hw
  · cases hw

theorem countP_handlerWrites_eq_zero (r : Record) (hs : List Handler) (d : Dest)
    (hd : d ∉ hs.map Handler.dest) :
    (hs.filterMap (handlerWrite r)).countP (fun w => w.1 == d) = 0 := by
  induction hs with
  | nil => rfl
  | cons h t ih =>
    simp only [List.map_cons, List.mem_cons, not_or] at hd
    cases hw : handlerWrite r h with
    | none => simpa [List.filterMap_cons, hw] using ih hd.2
    | some w =>
      have hne : w.1 ≠ d := by
        rw [handlerWrite_dest hw]
        exact fun hc => hd.1 hc.symm
      simp [List.filterMap_cons, hw, List.countP_cons,
        beq_eq_false_iff_ne.mpr hne, ih hd.2]

theorem countP_handlerWrites_le_one (r : Record) (hs : List Handler) (d : Dest)
    (hnd : (hs.map Handler.dest).Nodup) :
    (hs.filterMap (handlerWrite r)).countP (fun w => w.1 == d) ≤ 1 := by
  induction hs with
  | nil => simp
  | cons h t ih =>
    simp only [List.map_cons, List.nodup_cons] at hnd
    cases hw : handlerWrite r h with
    | none => simpa [List.filterMap_cons, hw] using ih hnd.2
    | some w =>
      by_cases hd : w.1 = d
      · have hdd : d ∉ t.map Handler.dest := by
          rw [← hd, handlerWrite_dest hw]
          exact hnd.1
        simp [List.filterMap_cons, hw, List.countP_cons, hd,
          countP_handlerWrites_eq_zero r t d hdd]
      · simpa [List.filterMap_cons, hw, List.countP_cons,
          beq_eq_false_iff_ne.mpr hd] using ih hnd.2

theorem debug_le_num (l : Severity) : Severity.debug.num ≤ l.num := by
  cases l <;> decide

theorem emitWrites_sysDefault (r : Record) :
    emitWrites sysDefault r = setupHandlers.filterMap (handlerWrite r) := by
  unfold emitWrites sysDefault LoggingSystem.init
  rw [if_pos (debug_le_num r.levelno)]

/-- C1 (amended): an emitted event is delivered to exactly the sinks whose
minimum severity is at or below its severity — console at INFO, plain file
at DEBUG, structured JSON file at INFO, error file at ERROR — each passing
sink getting exactly one appended line and each filtered sink none, with
the proviso the counterexample forces: the JSON sink appends a line only
when the structured formatter also serializes the event successfully. -/
theorem C1_severity_routing (r : Record) :
    linesTo sysDefault r Dest.console
      = (if Severity.info.num ≤ r.levelno.num then 1 else 0)
    ∧ linesTo sysDefault r Dest.plainFile
      = (if Severity.debug.num ≤ r.levelno.num then 1 else 0)
    ∧ linesTo sysDefault r Dest.jsonFile
      = (if Severity.info.num ≤ r.levelno.num ∧ (JSONFormatter.format r).isOk = true
         then 1 else 0)
    ∧ linesTo sysDefault r Dest.errorFile
      = (if Severity.error.num ≤ r.levelno.num then 1 else 0) := by
  have he := emitWrites_sysDefault r
  cases hj : JSONFormatter.format r with
  | ok line =>
      cases hl : r.levelno <;>
        simp [linesTo, he, setupHandlers, handlerWrite, renderWith, Severity.num, hj, hl,
          List.filterMap_cons, List.countP_cons, Except.isOk, Except.toBool]
  | error e =>
      cases hl : r.levelno <;>
        simp [linesTo, he, setupHandlers, handlerWrite, renderWith, Severity.num, hj, hl,
          List.filterMap_cons, List.countP_cons, Except.isOk, Except.toBool]

/-- An INFO-severity record whose `extra_data` holds a value `json.dumps`
cannot serialize. -/
def recC1 : Record :=
  { created := "2025-01-01 10:00:00", levelno := .info, name := "app",
    message := "m", module := "mod", funcName := "f", lineno := 1,
    exc_text := Option.none, user_id := Option.none, request_id := Option.none,
    extra_data := some [("blob", PyValue.obj "MyObj instance")] }

/-- C1 counterexample: this INFO event passes the JSON sink's INFO threshold,
yet zero lines are appended to the structured file — the formatter raises
inside `json.dumps` and `Handler.emit` swallows the record — refuting
"a sink whose min_severity is at or below it gets exactly one line appended". -/
theorem C1_counterexample :
    Severity.info.num ≤ recC1.levelno.num
      ∧ linesTo sysDefault recC1 Dest.jsonFile = 0 := by
  constructor
  · decide
  · decide

/-- C2: constructing the logging system twice in succession leaves exactly
four handlers installed (`__init__` clears the root logger's handler list
before `_setup_handlers` adds its four), and a single subsequent emit
appends at most one line to any destination (the four handlers write to
pairwise distinct destinations). -/
theorem C2_init_idempotent (s : LoggingSystem) (r : Record) (d : Dest) :
    (LoggingSystem.init (LoggingSystem.init s)).handlers.length = 4
    ∧ linesTo (LoggingSystem.init (LoggingSystem.init s)) r d ≤ 1 := by
  refine ⟨rfl, ?_⟩
  have hs : LoggingSystem.init (LoggingSystem.init s) = sysDefault := rfl
  rw [hs]
  show (emitWrites sysDefault r).countP (fun w => w.1 == d) ≤ 1
  rw [emitWrites_sysDefault]
  exact countP_handlerWrites_le_one r setupHandlers d (by decide)

/-- The set of keys of one structured-JSON output line, in order. -/
def jsonKeys (r : Record) : List String := (JSONFormatter.logEntry r).map Prod.fst

/-- A fixed call site reused by concrete instantiations. -/
def csW : CallSite :=
  { created := "2025-01-01 10:00:00", module := "mod", funcName := "fn", lineno := 42 }

/-- C3 (amended): a structured-JSON line carries exactly the seven required
keys plus `exception` / `user_id` / `request_id` / `extra_data` when the
corresponding record attribute is present; and, as the counterexample
forces, `log_with_context` sets those attributes only when the context
argument is supplied AND truthy (a falsy value such as `user_id=""` or an
empty `extra_data` dict is dropped), never as an exception-bearing record. -/
theorem C3_structured_keys (r2 : Record) (logger_name level msg : String)
    (c : Ctx) (cs : CallSite) (r : Record)
    (h : log_with_context logger_name level msg c cs = Except.ok r) :
    jsonKeys r2 = ["timestamp", "level", "logger", "message", "module", "function", "line"]
        ++ (if r2.exc_text.isSome then ["exception"] else [])
        ++ (if r2.user_id.isSome then ["user_id"] else [])
        ++ (if r2.request_id.isSome then ["request_id"] else [])
        ++ (if r2.extra_data.isSome then ["extra_data"] else [])
    ∧ r.user_id.isSome = truthyS c.user_id
    ∧ r.request_id.isSome = truthyS c.request_id
    ∧ r.extra_data.isSome = truthyD c.extra_data
    ∧ r.exc_text = Option.none := by
  constructor
  · rcases r2 with ⟨c2, lv2, n2, m2, md2, fn2, ln2, ex2, ui2, ri2, ed2⟩
    cases ex2 <;> cases ui2 <;> cases ri2 <;> cases ed2 <;>
      simp [jsonKeys, JSONFormatter.logEntry]
  · cases hm : loggerMethod level with
    | none => rw [log_with_context, hm] at h; cases h
    | some sev =>
      rw [log_with_context, hm] at h
      injection h with h
      subst h
      refine ⟨?_, ?_, ?_, rfl⟩
      · cases htr : truthyS c.user_id with
        | false => simp [htr]
        | true =>
          cases hcu : c.user_id with
          | none => rw [hcu] at htr; simp [truthyS] at htr
          | some u => simp [htr, hcu]
      · cases htr : truthyS c.request_id with
        | false => simp [htr]
        | true =>
          cases hcu : c.request_id with
          | none => rw [hcu] at htr; simp [truthyS] at htr
          | some u => simp [htr, hcu]
      · cases htr : truthyD c.extra_data with
        | false => simp [htr]
        | true =>
          cases hcu : c.extra_data with
          | none => rw [hcu] at htr; simp [truthyD] at htr
          | some d0 => simp [htr, hcu]

/-- The context of the C3 counterexample: a supplied-but-empty `user_id`. -/
def ctxC3 : Ctx := { user_id := some "" }

/-- The record the C3 counterexample call constructs. -/
def recC3 : Record :=
  { created := "2025-01-01 10:00:00", levelno := .info, name := "app",
    message := "m", module := "mod", funcName := "fn", lineno := 42,
    exc_text := Option.none, user_id := Option.none, request_id := Option.none,
    extra_data := Option.none }

/-- C3 counterexample: supplying the falsy-but-valid context value
`user_id = ""` to the emit call yields a structured line with no `user_id`
key at all — `log_with_context` tests truthiness, not presence — refuting
the claim that each context field supplied to the call appears as a key. -/
theorem C3_counterexample :
    log_with_context "app" "info" "m" ctxC3 csW = Except.ok recC3
    ∧ "user_id" ∉ jsonKeys recC3 := by
  exact ⟨rfl, by decide⟩

/-- The context of the C3 witness call. -/
def ctxC3w : Ctx :=
  { user_id := some "user123",
    extra_data := some [("order_id", PyValue.str "ORDER789")] }

/-- The record the C3 witness call constructs. -/
def recC3w : Record :=
  { created := "2025-01-01 10:00:00", levelno := .info, name := "business_logic",
    message := "Order processed", module := "mod", funcName := "fn", lineno := 42,
    exc_text := Option.none, user_id := some "user123", request_id := Option.none,
    extra_data := some [("order_id", PyValue.str "ORDER789")] }

/-- C3 witness: concrete instantiation with a truthy `user_id` and
`extra_data` supplied and a `request_id` omitted. -/
theorem C3_witness :
    jsonKeys recC3w = ["timestamp", "level", "logger", "message", "module",
      "function", "line", "user_id", "extra_data"]
    ∧ recC3w.user_id.isSome = truthyS ctxC3w.user_id :=
  have H := C3_structured_keys recC3w "business_logic" "Info" "Order processed"
    ctxC3w csW recC3w rfl
  ⟨H.1, H.2.1⟩

theorem dumpsPairs_isOk_false (kvs : List (String × PyValue)) (k : String)
    (v : PyValue) (hm : (k, v) ∈ kvs) (hv : (dumps v).isOk = false) :
    (dumpsPairs kvs).isOk = false := by
  induction kvs with
  | nil => simp at hm
  | cons x xs ih =>
    obtain ⟨xk, xv⟩ := x
    rcases List.mem_cons.mp hm with h | h
    · cases h
      cases hd : dumps v with
      | error e => simp only [dumpsPairs, hd]; rfl
      | ok rv => rw [hd] at hv; simp [Except.isOk, Except.toBool] at hv
    · cases hd : dumps xv with
      | error e => simp only [dumpsPairs, hd]; rfl
      | ok rv =>
        have htail := ih h
        cases hr : dumpsPairs xs with
        | error e2 => simp only [dumpsPairs, hd, hr]; rfl
        | ok rs => rw [hr] at htail; simp [Except.isOk, Except.toBool] at htail

theorem dict_isOk (kvs : List (String × PyValue)) :
    (dumps (PyValue.dict kvs)).isOk = (dumpsPairs kvs).isOk := by
  cases h : dumpsPairs kvs <;> simp [dumps, h, Except.isOk, Except.toBool]

/-- C4 (amended): when `extra_data` holds a value that is not
JSON-serializable, rendering the structured-JSON line FAILS — `json.dumps`
is called with no `default=str` fallback, so it raises TypeError and no log
line is produced for that sink (the handler swallows the error); there is
no string-conversion degradation. -/
theorem C4_dumps_raises (r : Record) (d : List (String × PyValue)) (k s : String)
    (hd : r.extra_data = some d) (hm : (k, PyValue.obj s) ∈ d) :
    (JSONFormatter.format r).isOk = false := by
  have h2 : (dumps (PyValue.dict d)).isOk = false := by
    rw [dict_isOk]
    exact dumpsPairs_isOk_false d k (PyValue.obj s) hm rfl
  have h1 : ("extra_data", PyValue.dict d) ∈ JSONFormatter.logEntry r := by
    simp [JSONFormatter.logEntry, hd]
  have h3 := dumpsPairs_isOk_false (JSONFormatter.logEntry r) "extra_data"
    (PyValue.dict d) h1 h2
  rw [JSONFormatter.format, dict_isOk]
  exact h3

/-- A record carrying a non-serializable `extra_data` value (a set, say). -/
def recC4 : Record :=
  { created := "2025-01-01 10:00:00", levelno := .error, name := "app",
    message := "boom", module := "mod", funcName := "fn", lineno := 7,
    exc_text := Option.none, user_id := Option.none, request_id := Option.none,
    extra_data := some [("payload", PyValue.obj "set-object")] }

/-- C4 counterexample: rendering this event's structured line raises inside
`json.dumps` (no line is produced), refuting the claim that the
non-serializable value is stringified and the line still emitted. -/
theorem C4_counterexample : (JSONFormatter.format recC4).isOk = false := by
  decide

/-- A second record with a non-serializable value, for the C4 witness. -/
def recC4w : Record :=
  { created := "2025-01-01 10:00:00", levelno := .info, name := "api",
    message := "req", module := "mod", funcName := "fn", lineno := 9,
    exc_text := Option.none, user_id := Option.none, request_id := Option.none,
    extra_data := some [("n", PyValue.int 1), ("conn", PyValue.obj "socket")] }

/-- C4 witness: the amended theorem applied at a concrete record. -/
theorem C4_witness : (JSONFormatter.format recC4w).isOk = false :=
  C4_dumps_raises recC4w [("n", PyValue.int 1), ("conn", PyValue.obj "socket")]
    "conn" "socket" rfl (by simp)

/-- C5: when appending a formatted line would push the active file past
`maxBytes`, exactly one rotation occurs (the active file becomes backup
generation 1 and the existing generations shift, truncated to
`backupCount`), the triggering line is written to the new active file and
never lost, at most `backupCount + 1` files exist afterwards, and the
oldest backup is deleted once the backup limit was already reached; the
per-sink limits are plain file 10 MB / 5, structured file 10 MB / 5,
error file 5 MB / 3, console unrotated. -/
theorem C5_rotation (f : RotFile) (line : String)
    (ht : fileBytes f.active + lineBytes line > f.maxBytes) :
    (f.write line).active = [line]
    ∧ (f.write line).backups = (f.active :: f.backups).take f.backupCount
    ∧ (f.write line).fileCount ≤ f.backupCount + 1
    ∧ (f.backups.length = f.backupCount →
        (f.write line).backups.length = f.backupCount
        ∧ (0 < f.backupCount →
            (f.write line).backups = f.active :: f.backups.dropLast))
    ∧ sinkRotation Dest.plainFile = some (10 * 1024 * 1024, 5)
    ∧ sinkRotation Dest.jsonFile = some (10 * 1024 * 1024, 5)
    ∧ sinkRotation Dest.errorFile = some (5 * 1024 * 1024, 3)
    ∧ sinkRotation Dest.console = Option.none := by
  have hro : f.shouldRollover line = true := by
    simp only [RotFile.shouldRollover, decide_eq_true_eq]
    exact ht
  have hw : f.write line =
      { f with active := [line],
               backups := (f.active :: f.backups).take f.backupCount } := by
    rw [RotFile.write, if_pos hro]
    rfl
  refine ⟨?_, ?_, ?_, ?_, rfl, rfl, rfl, rfl⟩
  · rw [hw]
  · rw [hw]
  · rw [hw]
    show 1 + ((f.active :: f.backups).take f.backupCount).length ≤ f.backupCount + 1
    rw [List.length_take]
    have := Nat.min_le_left f.backupCount (f.active :: f.backups).length
    omega
  · intro hfull
    constructor
    · rw [hw]
      show ((f.active :: f.backups).take f.backupCount).length = f.backupCount
      rw [List.length_take, List.length_cons, hfull]
      omega
    · intro hpos
      rw [hw]
      show (f.active :: f.backups).take f.backupCount = f.active :: f.backups.dropLast
      obtain ⟨m, hm⟩ : ∃ m, f.backupCount = m + 1 := ⟨f.backupCount - 1, by omega⟩
      rw [hm, List.take_succ_cons]
      congr 1
      rw [List.dropLast_eq_take, hfull, hm]
      simp

/-- A small rotating file one write away from its threshold. -/
def rotW : RotFile :=
  { maxBytes := 10, backupCount := 2, active := ["123456"], backups := [["a"]] }

/-- C5 witness: a concrete write that triggers rotation. -/
theorem C5_witness :
    (rotW.write "abcd").active = ["abcd"]
    ∧ (rotW.write "abcd").backups = [["123456"], ["a"]]
    ∧ (rotW.write "abcd").fileCount ≤ 3 := by
  have H := C5_rotation rotW "abcd" (by decide)
  exact ⟨H.1, H.2.1, H.2.2.1⟩

theorem lookup_eq_none {β : Type} (l : List (String × β)) (k : String)
    (h : k ∉ l.map Prod.fst) : l.lookup k = Option.none := by
  induction l with
  | nil => rfl
  | cons x xs ih =>
    simp only [List.map_cons, List.mem_cons, not_or] at h
    simp [List.lookup, beq_eq_false_iff_ne.mpr h.1, ih h.2]

/-- C6 (amended): a level name whose lowercase form is not an actual
`Logger` logging-method name (the five severity names plus the aliases
`warn`, `exception`, `fatal`) makes `log_with_context` raise a
caller-visible AttributeError out of `getattr(logger, level.lower())`, and
no event is emitted; the alias names, although outside the five recognized
severity names, are accepted and emit (see the counterexample). -/
theorem C6_unknown_level (logger_name level msg : String) (c : Ctx) (cs : CallSite)
    (h : pyLower level ∉ loggerMethods.map Prod.fst) :
    log_with_context logger_name level msg c cs
      = Except.error ("AttributeError: Logger object has no attribute "
          ++ pyLower level) := by
  have hl : loggerMethod level = Option.none := by
    rw [loggerMethod]
    exact lookup_eq_none loggerMethods (pyLower level) h
  simp [log_with_context, hl]

/-- An empty context for the C6 instantiations. -/
def ctxC6 : Ctx := {}

/-- The record the C6 counterexample call constructs. -/
def recC6 : Record :=
  { created := "2025-01-01 10:00:00", levelno := .critical, name := "app",
    message := "m", module := "mod", funcName := "fn", lineno := 42,
    exc_text := Option.none, user_id := Option.none, request_id := Option.none,
    extra_data := Option.none }

/-- C6 counterexample: `FATAL` is not one of the five recognized severity
names, yet the call is not rejected — `getattr(logger, "fatal")` finds
CPython's `Logger.fatal` alias and the event is emitted at CRITICAL. -/
theorem C6_counterexample :
    pyLower "FATAL" ∉ ["debug", "info", "warning", "error", "critical"]
    ∧ log_with_context "app" "FATAL" "m" ctxC6 csW = Except.ok recC6
    ∧ recC6.levelno = Severity.critical :=
  ⟨by decide, rfl, rfl⟩

/-- C6 witness: a level name resolving to no logger method is rejected. -/
theorem C6_witness :
    log_with_context "app" "verbose" "m" ctxC6 csW
      = Except.error "AttributeError: Logger object has no attribute verbose" :=
  C6_unknown_level "app" "verbose" "m" ctxC6 csW (by decide)

/-- C7 (amended): `log_query` emits INFO on the `database` logger; the
message is `Executing query: ` plus the first 100 characters of the query
plus a literal `...`, with the ` (took <t>s)` suffix exactly when
`execution_time` is supplied AND truthy (so not for `0.0`); `extra_data`
always carries the full query and carries `params` / `execution_time`
exactly when those arguments are supplied and truthy (so not for an empty
dict or `0.0`). -/
theorem string_append_assoc (a b c : String) : a ++ b ++ c = a ++ (b ++ c) := by
  apply String.ext
  simp [String.data_append, List.append_assoc]

theorem C7_log_query (cs : CallSite) (query : String)
    (params : Option (List (String × PyValue))) (et : Option ℚ) :
    (DatabaseLogger.log_query cs query params et).levelno = Severity.info
    ∧ (DatabaseLogger.log_query cs query params et).name = "database"
    ∧ (DatabaseLogger.log_query cs query params et).message
        = (if truthyF et
           then "Executing query: " ++ query.take 100 ++ "..." ++ " (took "
                ++ fmt3 (et.getD 0) ++ "s)"
           else "Executing query: " ++ query.take 100 ++ "...")
    ∧ ((DatabaseLogger.log_query cs query params et).extra_data.getD []).lookup
        "query" = some (PyValue.str query)
    ∧ ((DatabaseLogger.log_query cs query params et).extra_data.getD []).lookup
        "params" = (if truthyD params
                    then some (PyValue.dict (params.getD [])) else Option.none)
    ∧ ((DatabaseLogger.log_query cs query params et).extra_data.getD []).lookup
        "execution_time" = (if truthyF et
                            then some (PyValue.float (et.getD 0)) else Option.none) := by
  cases htp : truthyD params <;> cases hte : truthyF et <;>
    simp [DatabaseLogger.log_query, htp, hte, List.lookup, string_append_assoc]

set_option maxRecDepth 4000 in
/-- C7 counterexample: `log_query("q", None, 0.0)` — `execution_time` was
supplied (as the valid measurement `0.0`) but the message gets no
` (took 0.000s)` suffix and `extra_data` gets no `execution_time` key: the
code tests truthiness (`if execution_time:`), not presence. -/
theorem C7_counterexample :
    (DatabaseLogger.log_query csW "q" Option.none (some 0)).message
      = "Executing query: q..."
    ∧ ((DatabaseLogger.log_query csW "q" Option.none (some 0)).extra_data.getD
        []).lookup "execution_time" = Option.none :=
  ⟨rfl, rfl⟩

/-- C8: `log_response` emits at WARNING exactly when `status_code >= 400`
and at INFO exactly otherwise. -/
theorem C8_response_severity (cs : CallSite) (sc : Int) (rt : ℚ)
    (rid : Option String) :
    ((APILogger.log_response cs sc rt rid).levelno = Severity.warning ↔ 400 ≤ sc)
    ∧ ((APILogger.log_response cs sc rt rid).levelno = Severity.info ↔ sc < 400) := by
  by_cases h : (400 : Int) ≤ sc <;>
    simp [APILogger.log_response, ge_iff_le, h]
  omega

/-- Substring containment at the character-list level. -/
def strContains (h n : String) : Prop := ∃ a b, h.data = a ++ n.data ++ b

/-- C9: `log_login_attempt` emits INFO on success and WARNING on failure,
always stamps `extra_data.event_type = "login_attempt"`, and on failure the
message contains `failed`, the username and the IP address. -/
theorem C9_login_attempt (cs : CallSite) (u : String) (success : Bool)
    (ip : String) (ua : Option String) :
    ((SecurityLogger.log_login_attempt cs u success ip ua).levelno
        = if success then Severity.info else Severity.warning)
    ∧ ((SecurityLogger.log_login_attempt cs u success ip ua).extra_data.getD
        []).lookup "event_type" = some (PyValue.str "login_attempt")
    ∧ (success = false →
        strContains (SecurityLogger.log_login_attempt cs u success ip ua).message
          "failed"
        ∧ strContains (SecurityLogger.log_login_attempt cs u success ip ua).message u
        ∧ strContains (SecurityLogger.log_login_attempt cs u success ip ua).message
            ip) := by
  refine ⟨rfl, rfl, ?_⟩
  intro hs
  subst hs
  refine ⟨⟨("Login attempt ").data,
           (" for user: " ++ u ++ " from " ++ ip).data, ?_⟩,
          ⟨("Login attempt " ++ "failed" ++ " for user: ").data,
           (" from " ++ ip).data, ?_⟩,
          ⟨("Login attempt " ++ "failed" ++ " for user: " ++ u ++ " from ").data,
           ([] : List Char), ?_⟩⟩ <;>
    simp [SecurityLogger.log_login_attempt, String.data_append]

/-- C9 witness: `log_login_attempt("bob", False, "10.0.0.1")` produces a
message containing `failed`, `bob` and `10.0.0.1`. -/
theorem C9_witness :
    strContains (SecurityLogger.log_login_attempt csW "bob" false "10.0.0.1"
      Option.none).message "failed"
    ∧ strContains (SecurityLogger.log_login_attempt csW "bob" false "10.0.0.1"
        Option.none).message "bob"
    ∧ strContains (SecurityLogger.log_login_attempt csW "bob" false "10.0.0.1"
        Option.none).message "10.0.0.1" :=
  (C9_login_attempt csW "bob" false "10.0.0.1" Option.none).2.2 rfl

/-- C10: `log_request` always puts `method`, `endpoint` and `ip_address`
into the inner `extra_data` dictionary — `ip_address` bound to `None`
(JSON null) when the argument was omitted — while the top-level `user_id`
and `request_id` context attributes are attached only when supplied and
truthy. -/
theorem C10_request_extra (cs : CallSite) (m e : String)
    (ui rid ip : Option String) :
    ((APILogger.log_request cs m e ui rid ip).extra_data.getD []).lookup
        "method" = some (PyValue.str m)
    ∧ ((APILogger.log_request cs m e ui rid ip).extra_data.getD []).lookup
        "endpoint" = some (PyValue.str e)
    ∧ ((APILogger.log_request cs m e ui rid ip).extra_data.getD []).lookup
        "ip_address" = some (optPy ip)
    ∧ optPy Option.none = PyValue.none
    ∧ (APILogger.log_request cs m e ui rid ip).user_id
        = (if truthyS ui then ui else Option.none)
    ∧ (APILogger.log_request cs m e ui rid ip).request_id
        = (if truthyS rid then rid else Option.none) :=
  ⟨rfl, rfl, rfl, rfl, rfl, rfl⟩
